import Mathlib

/-!
Verification of the Web-Scrape-Component repository (laptop.lk scraper).

The repository has two pipeline variants:
* `src/scraper.py` — thread-pool pipeline (`fetch_soup`, `get_all_product_links`,
  `scrape_product_details`, `main`);
* `src/Laptops.lk/scripts/LaptoplkScraper.py` — asyncio pipeline
  (`AsyncLaptopLKScraper.fetch_page`, `parse_product_data`, `fetch_and_parse_product`,
  `main`).

Both are shallowly embedded below.  Network I/O is modelled by an oracle
`Nat → Option α` giving the outcome of each HTTP attempt for one URL
(`some doc` = response with a success status, `none` = transport error or
error status, which both fetchers treat identically via `raise_for_status`).
Wall-clock timestamps are threaded as an explicit string parameter.
-/

namespace WebScrape

/-- Result of running one fetcher's retry loop: the value returned to the
caller (`none` = failure), the number of HTTP attempts actually made, and the
list of back-off delays (in seconds) inserted between attempts, in order. -/
structure FetchTrace (α : Type) where
  result : Option α
  attempts : Nat
  delays : List Nat
  deriving Repr, DecidableEq

/-- `MAX_RETRIES` from src/scraper.py line 15. -/
def MAX_RETRIES : Nat := 2

/-- Retry loop of `fetch_soup` (src/scraper.py lines 27–37):
`for attempt in range(1, MAX_RETRIES + 2)`.  `a` is the current attempt
number; the second argument is the number of attempts still allowed
(structural fuel; the loop runs at most `MAX_RETRIES + 1` times).  On failure
of a non-final attempt the code sleeps 1 second (`time.sleep(1)`) and
retries; on failure of the final attempt it returns an empty soup. -/
def fetch_soup_go {α : Type} (o : Nat → Option α) : Nat → Nat → FetchTrace α
  | _, 0 => ⟨none, 0, []⟩
  | a, r + 1 =>
    match o a with
    | some x => ⟨some x, 1, []⟩
    | none =>
      if r = 0 then ⟨none, 1, []⟩
      else
        let t := fetch_soup_go o (a + 1) r
        ⟨t.result, t.attempts + 1, 1 :: t.delays⟩

/-- `fetch_soup url` (src/scraper.py): attempts numbered 1..MAX_RETRIES+1.
`result = none` models the "return empty soup" failure path. -/
def fetch_soupTrace {α : Type} (o : Nat → Option α) : FetchTrace α :=
  fetch_soup_go o 1 (MAX_RETRIES + 1)

/-- Retry loop of `AsyncLaptopLKScraper.fetch_page`
(src/Laptops.lk/scripts/LaptoplkScraper.py lines 25–33):
`for attempt in range(self.max_retries)`.  On failure, if
`attempt + 1 == max_retries` the loop breaks and the function returns `None`;
otherwise it sleeps `2 ** attempt` seconds and retries. -/
def fetch_page_go {α : Type} (o : Nat → Option α) : Nat → Nat → FetchTrace α
  | _, 0 => ⟨none, 0, []⟩
  | a, r + 1 =>
    match o a with
    | some x => ⟨some x, 1, []⟩
    | none =>
      if r = 0 then ⟨none, 1, []⟩
      else
        let t := fetch_page_go o (a + 1) r
        ⟨t.result, t.attempts + 1, 2 ^ a :: t.delays⟩

/-- `fetch_page` with attempts numbered 0..max_retries−1. -/
def fetch_pageTrace {α : Type} (o : Nat → Option α) (max_retries : Nat) : FetchTrace α :=
  fetch_page_go o 0 max_retries

/-! ## Extractor of the asyncio pipeline: `AsyncLaptopLKScraper.parse_product_data` -/

/-- Result of the CSS queries `parse_product_data` performs inside the product
container `div[id^=product-]`.  Each field is the outcome of one fixed query
on the parsed tree:
* `id` — the container's `id` attribute;
* `titleText` — text of `h1.product_title`, if the node exists;
* `descHtml` — html of `div#tab-description, div.woocommerce-tabs`;
* `categoryTexts` — texts of `span.posted_in a`;
* `imageHrefs` — `href` attribute of each `div.woocommerce-product-gallery__image a`
  (the Python keeps `None` entries, hence `Option`);
* `priceCurrText` — text of the first match of the four current-price selectors;
* `priceOrigText` — text of the first match of the original-price selectors;
* `outOfStock` — whether `p.stock.out-of-stock` matches;
* `warrantyImg` — `img[alt*='warranty' i]` node, carrying its `alt` attribute
  when present. -/
structure ProductContainer where
  id : Option String
  titleText : Option String
  descHtml : Option String
  categoryTexts : List String
  imageHrefs : List (Option String)
  priceCurrText : Option String
  priceOrigText : Option String
  outOfStock : Bool
  warrantyImg : Option (Option String)
  deriving Repr, DecidableEq

/-- A fetched product page as `parse_product_data` observes it: `malformed`
models an HTML input on which building/traversing the tree raises (absorbed
by the blanket `except Exception` of the Python); `container` is the result
of `tree.css_first("div[id^=product-]")`. -/
structure Page where
  malformed : Bool
  container : Option ProductContainer
  deriving Repr, DecidableEq

structure Variant where
  variant_id_native : Option String
  variant_title : String
  price_current : String
  price_original : Option String
  currency : String
  availability_text : String
  deriving Repr, DecidableEq

structure RunMeta where
  source_website : String
  shop_contact_phone : String
  shop_contact_whatsapp : String
  scrape_timestamp : String
  deriving Repr, DecidableEq

/-- The record dictionary returned by `parse_product_data`. -/
structure ParsedProduct where
  product_id_native : Option String
  product_url : String
  product_title : Option String
  warranty : Option String
  description_html : Option String
  brand : Option String
  category_path : List String
  image_urls : List (Option String)
  variants : List Variant
  metadata : RunMeta
  deriving Repr, DecidableEq

/-- The fixed brand vocabulary (LaptoplkScraper.py line 54). -/
def knownBrands : List String :=
  ["hp", "dell", "apple", "lenovo", "asus", "msi", "acer", "samsung"]

/-- `re.sub(r'[^\d.]', '', s)` — keep only digits and decimal points. -/
def normPrice (s : String) : String :=
  ⟨s.data.filter (fun ch => ch.isDigit || ch == '.')⟩

/-- Python's `str.split(sep)` for a one-character separator, on the char
list: splits at every occurrence of `c`, keeping empty components. -/
def splitOnChar (c : Char) : List Char → List (List Char)
  | [] => [[]]
  | x :: xs =>
    let r := splitOnChar c xs
    if x == c then [] :: r
    else
      match r with
      | [] => [[x]]
      | ys :: rest => (x :: ys) :: rest

/-- `product_container.id.split('-')[-1]` — last hyphen-separated component. -/
def productIdOf (i : String) : String :=
  String.mk ((splitOnChar '-' i.data).getLastD [])

/-- `'Year-warranty' → ' Year Warranty'`, then hyphens to spaces
(LaptoplkScraper.py line 70). -/
def warrantyTextOf (alt : String) : String :=
  (alt.replace "Year-warranty" " Year Warranty").replace "-" " "

/-- Body of `parse_product_data` (LaptoplkScraper.py lines 36–76) before the
blanket exception handler: `error` models a raised exception, `ok none` the
`return None` for a missing product container, `ok (some r)` a parsed record.
`ts` is `self.scrape_timestamp`, captured once at construction. -/
def parse_core (ts : String) (p : Page) (url : String) : Except Unit (Option ParsedProduct) :=
  if p.malformed then Except.error ()
  else
    match p.container with
    | none => Except.ok none
    | some c =>
      let title := c.titleText
      let product_id :=
        match c.id with
        | some i => if i.isEmpty then none else some (productIdOf i)
        | none => none
      let description_html := c.descHtml
      let all_categories := c.categoryTexts
      let brand := all_categories.find? (fun cat => knownBrands.contains cat.toLower)
      let category_path := all_categories.filter
        (fun cat => cat.toLower != (brand.getD "").toLower)
      let image_urls := c.imageHrefs
      let price_current :=
        match c.priceCurrText with
        | some t => normPrice t
        | none => "0"
      let price_original := c.priceOrigText.map normPrice
      let availability_text := if c.outOfStock then "Out of Stock" else "In Stock"
      let warranty_text :=
        match c.warrantyImg with
        | some (some alt) => some (warrantyTextOf alt)
        | _ => none
      Except.ok (some
        { product_id_native := product_id
          product_url := url
          product_title := title
          warranty := warranty_text
          description_html := description_html
          brand := brand
          category_path := category_path
          image_urls := image_urls
          variants := [{ variant_id_native := product_id
                         variant_title := "Default"
                         price_current := price_current
                         price_original := price_original
                         currency := "LKR"
                         availability_text := availability_text }]
          metadata := { source_website := "laptop.lk"
                        shop_contact_phone := "+94 77 733 6464"
                        shop_contact_whatsapp := "+94 77 733 6464"
                        scrape_timestamp := ts } })

/-- `parse_product_data`: the `try/except Exception: return None` wrapper. -/
def parse_product_data (ts : String) (p : Page) (url : String) : Option ParsedProduct :=
  match parse_core ts p url with
  | Except.ok r => r
  | Except.error _ => none

/-! ## Asyncio pipeline coordinator: `main` of LaptoplkScraper.py -/

/-- A document as returned by one fetch: a sitemap-style XML carrying the
texts of its `loc` nodes, or a product page. -/
inductive Doc where
  | xml (locs : List String)
  | page (p : Page)
  deriving Repr, DecidableEq

/-- Texts of the `loc` nodes a `css('loc')` (resp. `css('url > loc')`) query
finds in the document; a product page contains none. -/
def Doc.locTexts : Doc → List String
  | .xml ls => ls
  | .page _ => []

/-- Viewing a fetched document through `HTMLParser` for product parsing: an
XML document has no `div[id^=product-]` container. -/
def Doc.asPage : Doc → Page
  | .page p => p
  | .xml _ => { malformed := false, container := none }

/-- Does `hay` start with `needle`? -/
def charListStartsWith : List Char → List Char → Bool
  | [], _ => true
  | _ :: _, [] => false
  | a :: as, b :: bs => a == b && charListStartsWith as bs

/-- Does `needle` occur as a contiguous run inside the second list?
Models Python's substring test `needle in hay`. -/
def charListContains (needle : List Char) : List Char → Bool
  | [] => needle.isEmpty
  | c :: rest => charListStartsWith needle (c :: rest) || charListContains needle rest

/-- `'product-sitemap' in node.text()` (LaptoplkScraper.py line 101). -/
def isProductSitemapUrl (s : String) : Bool :=
  charListContains "product-sitemap".data s.data

/-- Python set comprehension over the leaf `loc`s: deduplication by exact
string.  (CPython iterates a set in an unspecified order; this model keeps
the first occurrence in fetch order.) -/
def dedupSeen (seen : List String) : List String → List String
  | [] => []
  | x :: xs =>
    if x ∈ seen then dedupSeen seen xs
    else x :: dedupSeen (x :: seen) xs

/-- `fetch_page` as `main` uses it: the value of
`await scraper.fetch_page(client, u)` given the per-URL attempt oracle `o`. -/
def fetchDoc (o : String → Nat → Option Doc) (max_retries : Nat) (u : String) : Option Doc :=
  (fetch_pageTrace (o u) max_retries).result

/-- `fetch_and_parse_product` (LaptoplkScraper.py lines 85–89). -/
def fetch_and_parse_product (ts : String) (o : String → Nat → Option Doc)
    (max_retries : Nat) (u : String) : Option ParsedProduct :=
  match fetchDoc o max_retries u with
  | some d => parse_product_data ts d.asPage u
  | none => none

/-- Observable outcome of one run of the asyncio `main`:
whether `save_data` was called (the JSON artifact written), the final record
collection `all_products_data`, and the returned product count. -/
structure RunResult where
  artifactWritten : Bool
  records : List ParsedProduct
  returned : Nat
  deriving Repr, DecidableEq

/-- The asyncio `main` (LaptoplkScraper.py lines 92–118).  The scraper is
constructed with its defaults, so `max_retries = 3`.  `asyncio.gather` and
`tqdm.gather` return results in task order, so the pipeline is deterministic
given the oracle. -/
def async_main (ts : String) (o : String → Nat → Option Doc)
    (sitemap_index_url : String) : RunResult :=
  match fetchDoc o 3 sitemap_index_url with
  | none => ⟨false, [], 0⟩
  | some indexDoc =>
    let product_sitemap_urls := indexDoc.locTexts.filter isProductSitemapUrl
    let sitemap_xmls := product_sitemap_urls.map (fetchDoc o 3)
    let unique_product_urls := dedupSeen []
      (sitemap_xmls.flatMap (fun x =>
        match x with
        | some d => d.locTexts
        | none => []))
    if unique_product_urls.isEmpty then ⟨false, [], 0⟩
    else
      let results := unique_product_urls.map (fetch_and_parse_product ts o 3)
      let all_products_data := results.filterMap id
      ⟨true, all_products_data, all_products_data.length⟩

/-! ## Thread-pool pipeline: `scraper.py` -/

/-- Specifications value of `scrape_product_details`: a dict of rows, or the
string sentinel `"Specs not found"` (the Python variable is dynamically
typed). -/
inductive SpecResult where
  | table (entries : List (String × String))
  | notFound
  deriving Repr, DecidableEq

/-- A page as `scrape_product_details` observes it through BeautifulSoup:
* `titleNode` — text of `h1.product_title.entry-title`;
* `priceNode` — text of `p.price bdi`;
* `descNode` — text of `div.woocommerce-product-details__short-description`;
* `strippedStrings` — `soup.stripped_strings` in document order;
* `shopAttributes` — rows of `table.shop_attributes`, each row carrying the
  text of its `th` and `td` cells when those cells exist;
* `tabSpecificationLines` — lines of `div#tab-specification`'s text;
* `starRating` — the `div.star-rating` node, carrying its `title` attribute
  when present;
* `galleryImgs` — `src` attribute of each gallery `img`. -/
structure Soup where
  titleNode : Option String
  priceNode : Option String
  descNode : Option String
  strippedStrings : List String
  shopAttributes : Option (List (Option String × Option String))
  tabSpecificationLines : Option (List String)
  starRating : Option (Option String)
  galleryImgs : List (Option String)
  deriving Repr, DecidableEq

/-- `BeautifulSoup("", "lxml")` — the empty soup `fetch_soup` returns after
exhausting its retries: every query fails. -/
def Soup.empty : Soup := ⟨none, none, none, [], none, none, none, []⟩

/-- What the caller of `fetch_soup` receives: the parsed page, or the empty
soup once retries are exhausted. -/
def fetch_soupResult (o : Nat → Option Soup) : Soup :=
  (fetch_soupTrace o).result.getD Soup.empty

/-- The record dict built by `scrape_product_details` (scraper.py 115–126). -/
structure ProductDetails where
  timestamp : String
  category : String
  title : String
  price : String
  warranty : String
  description : String
  specifications : SpecResult
  reviews : String
  ratings : String
  image_urls : List String
  deriving Repr, DecidableEq

/-- `"warranty" in s.lower()` (scraper.py line 88). -/
def containsWarranty (s : String) : Bool :=
  charListContains "warranty".data s.toLower.data

/-- `k, v = line.split(":", 1)` followed by `.strip()` on both parts. -/
def splitColonOnce (line : String) : String × String :=
  let pre := line.data.takeWhile (fun c => c != ':')
  let post := line.data.drop (pre.length + 1)
  ((String.mk pre).trim, (String.mk post).trim)

/-- Body of `scrape_product_details` (scraper.py lines 81–126) given the
fetched soup.  `error` models an uncaught exception — the Python dereferences
`tr.select_one("th")`/`tr.select_one("td")` without a `None` check, so a
specification row lacking either cell raises `AttributeError` (swallowed
later by `main`'s `try/except` around `future.result()`). -/
def scrape_product_details_core (ts : String) (soup : Soup) (category : String) :
    Except Unit ProductDetails := do
  let warranty :=
    (soup.strippedStrings.find? containsWarranty).getD "Warranty not found"
  let specEntries ←
    match soup.shopAttributes with
    | some rows =>
      rows.mapM (fun row =>
        match row.1, row.2 with
        | some k, some v => Except.ok (k, v)
        | _, _ => Except.error ())
    | none =>
      match soup.tabSpecificationLines with
      | some lines =>
        Except.ok (lines.filterMap (fun line =>
          if line.data.contains ':' then some (splitColonOnce line) else none))
      | none => Except.ok []
  let specifications :=
    if specEntries.isEmpty then SpecResult.notFound else SpecResult.table specEntries
  let ratings :=
    match soup.starRating with
    | some (some t) => t
    | _ => "No rating"
  Except.ok
    { timestamp := ts
      category := category
      title := soup.titleNode.getD "No title"
      price := soup.priceNode.getD "No price"
      warranty := warranty
      description := soup.descNode.getD "No description"
      specifications := specifications
      reviews := "Reviews not supported"
      ratings := ratings
      image_urls := soup.galleryImgs.filterMap id }

/-- `scrape_product_details(prod_url, category)`: fetches the page itself via
`fetch_soup` (never failing — empty soup at worst) and extracts the record. -/
def scrape_product_details (ts : String) (o : Nat → Option Soup) (category : String) :
    Except Unit ProductDetails :=
  scrape_product_details_core ts (fetch_soupResult o) category

/-- The per-category aggregation loop of `main` (scraper.py lines 137–160):
every `future.result()` is appended to `all_data`; a raised exception only
skips that one task.  `ThreadPoolExecutor.as_completed` yields futures in
completion order; this model uses submission order (the properties proved
below do not depend on the order). -/
def scraper_main (ts : String) (o : String → Nat → Option Soup)
    (cats : List (String × List String)) : List ProductDetails :=
  cats.flatMap (fun cat =>
    cat.2.filterMap (fun url => (scrape_product_details ts (o url) cat.1).toOption))

/-! ## Pagination walk: `get_all_product_links` (scraper.py lines 54–78) -/

/-- Outcome of `session.get` on one category page:
* `exn` — `requests.RequestException` (transport error / timeout);
* `notFound` — response with status 404;
* `okPage nodes` — any other response, carrying the
  `a.woocommerce-LoopProduct-link` nodes found in its body, each with its
  optional `href` attribute. -/
inductive PageResp where
  | exn
  | notFound
  | okPage (nodes : List (Option String))
  deriving Repr, DecidableEq

/-- The `while True` walk of `get_all_product_links`, starting from page
number `page`.  Returns the collected product URLs and the list of page
numbers actually fetched (one entry per `session.get` call, in order).  The
loop has no bound in the source; `fuel` makes the recursion structural and
the theorems assume it large enough for the walk to terminate on its own. -/
def get_all_product_links_go (pages : Nat → PageResp) : Nat → Nat → List String × List Nat
  | _, 0 => ([], [])
  | page, fuel + 1 =>
    match pages page with
    | .exn => ([], [page])
    | .notFound => ([], [page])
    | .okPage nodes =>
      if nodes.isEmpty then ([], [page])
      else
        let t := get_all_product_links_go pages (page + 1) fuel
        (nodes.filterMap id ++ t.1, page :: t.2)

/-- `get_all_product_links(category_url)`: the walk starts at page 1. -/
def get_all_product_links (pages : Nat → PageResp) (fuel : Nat) : List String × List Nat :=
  get_all_product_links_go pages 1 fuel

/-! ## Concurrency admission gate: `asyncio.Semaphore(max_connections)` -/

/-- Phase of one fetch task with respect to the semaphore in `fetch_page`
(LaptoplkScraper.py line 24): not yet admitted, inside the
`async with self.semaphore` block (all of its HTTP attempts happen here),
or finished. -/
inductive TaskPhase where
  | waiting
  | holding
  | done
  deriving Repr, DecidableEq

/-- Number of tasks currently inside the semaphore block, i.e. the number of
fetch attempts that can be simultaneously in flight (each holding task runs
its attempts sequentially). -/
def holdingCount (s : List TaskPhase) : Nat :=
  s.count TaskPhase.holding

/-- Transitions of the admission gate with capacity `n`: a waiting task may
enter only while fewer than `n` tasks hold the semaphore; a holding task may
leave at any time.  No other transition touches the gate. -/
inductive SemStep (n : Nat) : List TaskPhase → List TaskPhase → Prop where
  | acquire (pre post : List TaskPhase) :
      holdingCount (pre ++ TaskPhase.waiting :: post) < n →
      SemStep n (pre ++ TaskPhase.waiting :: post) (pre ++ TaskPhase.holding :: post)
  | release (pre post : List TaskPhase) :
      SemStep n (pre ++ TaskPhase.holding :: post) (pre ++ TaskPhase.done :: post)

/-- States reachable from a start state in which every dispatched task is
still waiting for admission (any number of tasks). -/
inductive SemReachable (n : Nat) : List TaskPhase → Prop where
  | init (ts : List TaskPhase) :
      (∀ t ∈ ts, t = TaskPhase.waiting) → SemReachable n ts
  | step {s s' : List TaskPhase} :
      SemReachable n s → SemStep n s s' → SemReachable n s'

/-! ## Concrete inputs used by counterexamples and witnesses -/

/-- The discovery entry point of the asyncio `main`. -/
def idxUrl : String := "https://www.laptop.lk/sitemap_index.xml"

def smUrl : String := "https://www.laptop.lk/product-sitemap.xml"

/-- Product container whose `id` attribute is `product-7`. -/
def containerA : ProductContainer :=
  { id := some "product-7", titleText := some "Laptop A", descHtml := none,
    categoryTexts := [], imageHrefs := [], priceCurrText := none,
    priceOrigText := none, outOfStock := false, warrantyImg := none }

/-- A second, different page whose container carries the same native id. -/
def containerB : ProductContainer :=
  { id := some "product-7", titleText := some "Laptop B", descHtml := none,
    categoryTexts := [], imageHrefs := [], priceCurrText := none,
    priceOrigText := none, outOfStock := false, warrantyImg := none }

def pageA : Page := ⟨false, some containerA⟩

def pageB : Page := ⟨false, some containerB⟩

/-- Oracle for the identifier-collision run: two distinct product URLs whose
pages carry the same native product id `7`; every fetch succeeds at once. -/
def oTwoSameId : String → Nat → Option Doc := fun u _ =>
  if u = idxUrl then some (Doc.xml [smUrl])
  else if u = smUrl then some (Doc.xml ["u1", "u2"])
  else if u = "u1" then some (Doc.page pageA)
  else if u = "u2" then some (Doc.page pageB)
  else none

def containerW : ProductContainer :=
  { id := some "product-9", titleText := none, descHtml := none,
    categoryTexts := [], imageHrefs := [], priceCurrText := none,
    priceOrigText := none, outOfStock := false, warrantyImg := none }

def pageW : Page := ⟨false, some containerW⟩

/-- Oracle for a run that extracts exactly one product. -/
def oOneGood : String → Nat → Option Doc := fun u _ =>
  if u = idxUrl then some (Doc.xml [smUrl])
  else if u = smUrl then some (Doc.xml ["u1"])
  else if u = "u1" then some (Doc.page pageW)
  else none

def varW : Variant :=
  { variant_id_native := some "9", variant_title := "Default", price_current := "0",
    price_original := none, currency := "LKR", availability_text := "In Stock" }

/-- The record `parse_product_data` produces for `pageW` at URL `u1`. -/
def recW : ParsedProduct :=
  { product_id_native := some "9", product_url := "u1", product_title := none,
    warranty := none, description_html := none, brand := none, category_path := [],
    image_urls := [], variants := [varW],
    metadata := ⟨"laptop.lk", "+94 77 733 6464", "+94 77 733 6464", "t"⟩ }

/-- Container whose current-price text carries a currency abbreviation with
its own period, as on the live site ("Rs. 125,000.00"). -/
def containerC7 : ProductContainer :=
  { id := some "product-55", titleText := some "X", descHtml := none,
    categoryTexts := [], imageHrefs := [], priceCurrText := some "Rs. 125,000.00",
    priceOrigText := none, outOfStock := false, warrantyImg := none }

def pageC7 : Page := ⟨false, some containerC7⟩

def pageNoContainer : Page := ⟨false, none⟩

/-- The record `scrape_product_details` builds from the empty soup a failed
fetch yields: every field holds its sentinel. -/
def sentinelDetails : ProductDetails :=
  { timestamp := "t", category := "Laptops", title := "No title", price := "No price",
    warranty := "Warranty not found", description := "No description",
    specifications := SpecResult.notFound, reviews := "Reviews not supported",
    ratings := "No rating", image_urls := [] }

/-- Category page sequence: products on pages 1–3, page 4 empty. -/
def pagesEx : Nat → PageResp
  | 1 => PageResp.okPage [some "a1"]
  | 2 => PageResp.okPage [some "a2", none]
  | 3 => PageResp.okPage [some "a3"]
  | _ => PageResp.okPage []

def nsEx : Nat → List (Option String)
  | 1 => [some "a1"]
  | 2 => [some "a2", none]
  | 3 => [some "a3"]
  | _ => []

/-- Category page sequence: products on pages 1–2, transport error on page 3. -/
def pagesEx2 : Nat → PageResp
  | 1 => PageResp.okPage [some "b1"]
  | 2 => PageResp.okPage [some "b2"]
  | 3 => PageResp.exn
  | _ => PageResp.notFound

def nsEx2 : Nat → List (Option String)
  | 1 => [some "b1"]
  | 2 => [some "b2"]
  | _ => []

/-! ## Helper lemmas -/

theorem fetch_soup_go_attempts_le {α : Type} (o : Nat → Option α) :
    ∀ r a, (fetch_soup_go o a r).attempts ≤ r := by
  intro r
  induction r with
  | zero => intro a; simp [fetch_soup_go]
  | succ r ih =>
    intro a
    simp only [fetch_soup_go]
    cases o a with
    | some x => simp
    | none =>
      by_cases h : r = 0
      · simp [h]
      · simp only [h, if_false]
        exact Nat.succ_le_succ (ih (a + 1))

theorem fetch_page_go_attempts_le {α : Type} (o : Nat → Option α) :
    ∀ r a, (fetch_page_go o a r).attempts ≤ r := by
  intro r
  induction r with
  | zero => intro a; simp [fetch_page_go]
  | succ r ih =>
    intro a
    simp only [fetch_page_go]
    cases o a with
    | some x => simp
    | none =>
      by_cases h : r = 0
      · simp [h]
      · simp only [h, if_false]
        exact Nat.succ_le_succ (ih (a + 1))

theorem fetch_soup_go_fail {α : Type} (o : Nat → Option α) (hfail : ∀ n, o n = none) :
    ∀ r a, (fetch_soup_go o a r).result = none := by
  intro r
  induction r with
  | zero => intro a; simp [fetch_soup_go]
  | succ r ih =>
    intro a
    simp only [fetch_soup_go, hfail a]
    by_cases h : r = 0
    · simp [h]
    · simp only [h, if_false]
      exact ih (a + 1)

theorem fetch_page_go_fail {α : Type} (o : Nat → Option α) (hfail : ∀ n, o n = none) :
    ∀ r a, (fetch_page_go o a r).result = none := by
  intro r
  induction r with
  | zero => intro a; simp [fetch_page_go]
  | succ r ih =>
    intro a
    simp only [fetch_page_go, hfail a]
    by_cases h : r = 0
    · simp [h]
    · simp only [h, if_false]
      exact ih (a + 1)

theorem fetch_page_go_delays {α : Type} (o : Nat → Option α) :
    ∀ r a i d, (fetch_page_go o a r).delays.get? i = some d → d = 2 ^ (a + i) := by
  intro r
  induction r with
  | zero => intro a i d h; simp [fetch_page_go] at h
  | succ r ih =>
    intro a i d h
    simp only [fetch_page_go] at h
    cases ho : o a with
    | some x => rw [ho] at h; simp at h
    | none =>
      rw [ho] at h
      by_cases hr : r = 0
      · simp [hr] at h
      · simp only [hr, if_false] at h
        cases i with
        | zero =>
          simp only [List.get?_cons_zero, Option.some_inj] at h
          simp [← h]
        | succ i =>
          simp only [List.get?_cons_succ] at h
          have := ih (a + 1) i d h
          rw [this]
          ring_nf

theorem fetch_soup_go_delays {α : Type} (o : Nat → Option α) :
    ∀ r a, ∀ d ∈ (fetch_soup_go o a r).delays, d = 1 := by
  intro r
  induction r with
  | zero => intro a d h; simp [fetch_soup_go] at h
  | succ r ih =>
    intro a d h
    simp only [fetch_soup_go] at h
    cases ho : o a with
    | some x => rw [ho] at h; simp at h
    | none =>
      rw [ho] at h
      by_cases hr : r = 0
      · simp [hr] at h
      · simp only [hr, if_false] at h
        rcases List.mem_cons.mp h with h1 | h1
        · exact h1
        · exact ih (a + 1) d h1

theorem fetch_page_go_delays_length {α : Type} (o : Nat → Option α) :
    ∀ r a, (fetch_page_go o a r).delays.length = (fetch_page_go o a r).attempts - 1 := by
  intro r
  induction r with
  | zero => intro a; simp [fetch_page_go]
  | succ r ih =>
    intro a
    simp only [fetch_page_go]
    cases o a with
    | some x => simp
    | none =>
      by_cases hr : r = 0
      · simp [hr]
      · simp only [hr, if_false, List.length_cons]
        have h1 := ih (a + 1)
        have h2 : 1 ≤ (fetch_page_go o (a + 1) r).attempts := by
          cases hr2 : r with
          | zero => exact absurd hr2 hr
          | succ r2 =>
            simp only [fetch_page_go]
            cases o (a + 1) with
            | some x => simp
            | none =>
              by_cases h3 : r2 = 0
              · simp [h3]
              · simp only [h3, if_false]; omega
        omega

theorem fetch_soup_go_delays_length {α : Type} (o : Nat → Option α) :
    ∀ r a, (fetch_soup_go o a r).delays.length = (fetch_soup_go o a r).attempts - 1 := by
  intro r
  induction r with
  | zero => intro a; simp [fetch_soup_go]
  | succ r ih =>
    intro a
    simp only [fetch_soup_go]
    cases o a with
    | some x => simp
    | none =>
      by_cases hr : r = 0
      · simp [hr]
      · simp only [hr, if_false, List.length_cons]
        have h1 := ih (a + 1)
        have h2 : 1 ≤ (fetch_soup_go o (a + 1) r).attempts := by
          cases hr2 : r with
          | zero => exact absurd hr2 hr
          | succ r2 =>
            simp only [fetch_soup_go]
            cases o (a + 1) with
            | some x => simp
            | none =>
              by_cases h3 : r2 = 0
              · simp [h3]
              · simp only [h3, if_false]; omega
        omega

theorem parse_product_data_url (ts : String) (p : Page) (url : String)
    (r : ParsedProduct) (h : parse_product_data ts p url = some r) :
    r.product_url = url := by
  unfold parse_product_data parse_core at h
  cases hm : p.malformed with
  | true => rw [hm] at h; simp at h
  | false =>
    rw [hm] at h
    cases hc : p.container with
    | none => rw [hc] at h; simp at h
    | some c =>
      rw [hc] at h
      simp at h
      subst h
      rfl

theorem fetch_and_parse_product_url (ts : String) (o : String → Nat → Option Doc)
    (mr : Nat) (u : String) (r : ParsedProduct)
    (h : fetch_and_parse_product ts o mr u = some r) :
    r.product_url = u := by
  unfold fetch_and_parse_product at h
  cases hd : fetchDoc o mr u with
  | none => rw [hd] at h; simp at h
  | some d => rw [hd] at h; exact parse_product_data_url ts d.asPage u r h

theorem dedupSeen_nodup_aux :
    ∀ (l seen : List String),
      (dedupSeen seen l).Nodup ∧ ∀ x ∈ dedupSeen seen l, x ∉ seen := by
  intro l
  induction l with
  | nil => intro seen; simp [dedupSeen]
  | cons x xs ih =>
    intro seen
    simp only [dedupSeen]
    by_cases hx : x ∈ seen
    · simp only [hx, if_true]
      exact ⟨(ih seen).1, (ih seen).2⟩
    · simp only [hx, if_false]
      have h1 := ih (x :: seen)
      refine ⟨List.nodup_cons.mpr ⟨?_, h1.1⟩, ?_⟩
      · intro hmem
        exact (h1.2 x hmem) (List.mem_cons_self x seen)
      · intro y hy
        rcases List.mem_cons.mp hy with h | h
        · rw [h]; exact hx
        · intro hseen
          exact (h1.2 y h) (List.mem_cons_of_mem x hseen)

theorem dedupSeen_nodup (l : List String) : (dedupSeen [] l).Nodup :=
  (dedupSeen_nodup_aux l []).1

/-- If `f` only ever produces elements that `g` maps back to their origin,
then mapping `g` over `l.filterMap f` yields a sublist of `l`. -/
theorem map_filterMap_sublist {α β : Type} (f : α → Option β) (g : β → α)
    (hfg : ∀ a b, f a = some b → g b = a) :
    ∀ l : List α, ((l.filterMap f).map g).Sublist l := by
  intro l
  induction l with
  | nil => simp
  | cons a l ih =>
    cases hfa : f a with
    | none =>
      rw [List.filterMap_cons_none hfa]
      exact ih.cons a
    | some b =>
      rw [List.filterMap_cons_some hfa]
      simp only [List.map_cons]
      rw [hfg a b hfa]
      exact ih.cons₂ a

theorem get_all_product_links_go_spec (pages : Nat → PageResp)
    (ns : Nat → List (Option String)) :
    ∀ (N p fuel : Nat),
      (∀ k, p ≤ k → k < p + N → pages k = PageResp.okPage (ns k) ∧ ns k ≠ []) →
      (pages (p + N) = PageResp.okPage [] ∨ pages (p + N) = PageResp.notFound ∨
        pages (p + N) = PageResp.exn) →
      N + 1 ≤ fuel →
      get_all_product_links_go pages p fuel =
        ((List.range' p N).flatMap (fun k => (ns k).filterMap id), List.range' p (N + 1)) := by
  intro N
  induction N with
  | zero =>
    intro p fuel _ hstop hfuel
    cases fuel with
    | zero => omega
    | succ f =>
      simp only [get_all_product_links_go]
      rcases hstop with h | h | h <;>
        simp [Nat.add_zero] at h <;>
        simp [h, List.range']
  | succ N ih =>
    intro p fuel hprod hstop hfuel
    cases fuel with
    | zero => omega
    | succ f =>
      have hp := hprod p (Nat.le_refl p) (by omega)
      simp only [get_all_product_links_go, hp.1]
      have hne : (ns p).isEmpty = false := by
        cases hns : ns p with
        | nil => exact absurd hns hp.2
        | cons a l => simp
      rw [hne]
      simp only [Bool.false_eq_true, if_false]
      have hrec := ih (p + 1) f
        (fun k hk1 hk2 => hprod k (by omega) (by omega))
        (by have : p + 1 + N = p + (N + 1) := by omega
            rw [this]; exact hstop)
        (by omega)
      rw [hrec]
      rfl

/-! ## Claim theorems -/

/-- C1, counterexample.  The claim states that aggregation deduplicates on
insert keyed by the record's identifier, so no two records of the final
output share an identifier.  In the run driven by `oTwoSameId`, discovery
yields the two distinct URLs `u1` and `u2`, whose pages both carry the
native id `7`; both parsed records enter `records`, sharing the identifier
`some "7"` while being different records (different titles and URLs).
Aggregation performs no identifier-keyed deduplication. -/
theorem C1_counterexample :
    ((async_main "t" oTwoSameId idxUrl).records.map
        (fun r => r.product_id_native)) = [some "7", some "7"] ∧
    ((async_main "t" oTwoSameId idxUrl).records.map
        (fun r => r.product_title)) = [some "Laptop A", some "Laptop B"] := by
  exact ⟨rfl, rfl⟩

/-- C1, amended.  What the asyncio pipeline does guarantee: no two records of
the final output share the same `product_url`, because discovery
deduplicates the leaf URLs (the Python set built on line 106) before any
fetching, and each URL contributes at most one record whose `product_url` is
that URL.  Aggregation itself performs no dedup keyed on the native id. -/
theorem C1_amended_url_unique (ts : String) (o : String → Nat → Option Doc)
    (idx : String) :
    ((async_main ts o idx).records.map (fun r => r.product_url)).Nodup := by
  unfold async_main
  cases hfd : fetchDoc o 3 idx with
  | none => simp
  | some indexDoc =>
    dsimp only
    split
    · simp
    · rw [List.filterMap_map]
      have hsub := map_filterMap_sublist
        (id ∘ fetch_and_parse_product ts o 3) (fun r => r.product_url)
        (fun u r hur => fetch_and_parse_product_url ts o 3 u r hur)
        (dedupSeen []
          ((((Doc.locTexts indexDoc).filter isProductSitemapUrl).map
              (fetchDoc o 3)).flatMap (fun x =>
            match x with
            | some d => d.locTexts
            | none => [])))
      exact (dedupSeen_nodup _).sublist hsub

/-- C2, counterexample.  The claim states that no record appears in the final
output for a task whose fetch failed.  In the thread-pool pipeline
(`scraper.py`), the fetch of the lone task `u1` fails on every attempt
(`fetch_soup` then returns the empty soup rather than a failure value the
coordinator could test), yet `main` appends a sentinel-filled record for
that task to `all_data`. -/
theorem C2_counterexample :
    (fetch_soupTrace (fun _ => (none : Option Soup))).result = none ∧
    scraper_main "t" (fun _ _ => none) [("Laptops", ["u1"])] = [sentinelDetails] := by
  exact ⟨rfl, rfl⟩

/-- C2, amended.  The claimed invariant does hold for the asyncio pipeline:
every record of the final collection comes from a URL whose fetch returned a
document and whose extraction returned that very record — a task whose fetch
fails or whose extraction returns `None` contributes nothing.  (In the
thread-pool pipeline the counterexample shows a failed fetch still yields a
sentinel-filled record.) -/
theorem C2_amended_async_success_only (ts : String) (o : String → Nat → Option Doc)
    (idx : String) (r : ParsedProduct)
    (h : r ∈ (async_main ts o idx).records) :
    ∃ d, fetchDoc o 3 r.product_url = some d ∧
      parse_product_data ts d.asPage r.product_url = some r := by
  unfold async_main at h
  cases hfd : fetchDoc o 3 idx with
  | none => rw [hfd] at h; simp at h
  | some indexDoc =>
    rw [hfd] at h
    dsimp only at h
    split at h
    · simp at h
    · rw [List.filterMap_map] at h
      rcases List.mem_filterMap.mp h with ⟨u, _, hfu⟩
      have hfu' : fetch_and_parse_product ts o 3 u = some r := hfu
      have hurl : r.product_url = u := fetch_and_parse_product_url ts o 3 u r hfu'
      unfold fetch_and_parse_product at hfu'
      cases hd : fetchDoc o 3 u with
      | none => rw [hd] at hfu'; simp at hfu'
      | some d =>
        rw [hd] at hfu'
        refine ⟨d, ?_, ?_⟩
        · rw [hurl]; exact hd
        · rw [hurl]; exact hfu'

theorem C2_amended_async_success_only_witness :
    ∃ d, fetchDoc oOneGood 3 recW.product_url = some d ∧
      parse_product_data "t" d.asPage recW.product_url = some recW :=
  C2_amended_async_success_only "t" oOneGood idxUrl recW (by decide)

/-- C3.  Both fetchers make at most `maxRetries + 1` HTTP attempts for one
URL (`fetch_soup` exactly up to `MAX_RETRIES + 1`, `fetch_page` even only up
to `max_retries`), and when every attempt fails they hand a failure value to
the caller instead of raising: `fetch_soup` returns the empty soup,
`fetch_page` returns `None`. -/
theorem C3_bounded_retries (o : Nat → Option Soup) (o2 : Nat → Option Doc) (mr : Nat) :
    (fetch_soupTrace o).attempts ≤ MAX_RETRIES + 1 ∧
    (fetch_pageTrace o2 mr).attempts ≤ mr + 1 ∧
    ((∀ n, o n = none) → fetch_soupResult o = Soup.empty) ∧
    ((∀ n, o2 n = none) → (fetch_pageTrace o2 mr).result = none) := by
  refine ⟨fetch_soup_go_attempts_le o (MAX_RETRIES + 1) 1, ?_, ?_, ?_⟩
  · exact le_trans (fetch_page_go_attempts_le o2 mr 0) (Nat.le_succ mr)
  · intro hf
    show (fetch_soupTrace o).result.getD Soup.empty = Soup.empty
    rw [show (fetch_soupTrace o).result = none from
      fetch_soup_go_fail o hf (MAX_RETRIES + 1) 1]
    rfl
  · intro hf
    exact fetch_page_go_fail o2 hf mr 0

theorem C3_bounded_retries_witness :
    (fetch_soupTrace (fun _ => (none : Option Soup))).attempts ≤ MAX_RETRIES + 1 ∧
    (fetch_pageTrace (fun _ => (none : Option Doc)) 3).attempts ≤ 3 + 1 ∧
    fetch_soupResult (fun _ => none) = Soup.empty ∧
    (fetch_pageTrace (fun _ => (none : Option Doc)) 3).result = none := by
  have h := C3_bounded_retries (fun _ => none) (fun _ => none) 3
  exact ⟨h.1, h.2.1, h.2.2.1 (fun _ => rfl), h.2.2.2 (fun _ => rfl)⟩

/-- C4, counterexample.  The claim states the Fetcher's inter-attempt delay
is exponential: `2^(k-1) × baseUnit` before retry `k`.  The thread-pool
fetcher (`fetch_soup`, scraper.py line 34) sleeps a constant 1 second: with
every attempt failing its delays are `[1, 1]`, which fit no base unit `b`
with first delay `b·2^0` and second delay `b·2^1`. -/
theorem C4_counterexample :
    (fetch_soupTrace (fun _ => (none : Option Soup))).delays = [1, 1] ∧
    ¬ ∃ b : Nat, 0 < b ∧
      (fetch_soupTrace (fun _ => (none : Option Soup))).delays = [b * 2 ^ 0, b * 2 ^ 1] := by
  refine ⟨rfl, ?_⟩
  rintro ⟨b, hb, hd⟩
  have h2 : ([1, 1] : List Nat) = [b * 2 ^ 0, b * 2 ^ 1] := hd
  simp at h2
  omega

/-- C4, amended.  The asyncio fetcher (`fetch_page`) does back off
exponentially: no delay before the first attempt, the delay inserted before
retry attempt `k` (the `(i+1)`-st attempt, `i = k−1`) is `2^(k-1)` seconds,
and a delay is inserted only when a retry actually follows a failed attempt
(one fewer delay than attempts).  The thread-pool fetcher (`fetch_soup`)
instead sleeps a constant 1 second before each retry. -/
theorem C4_amended_backoff (o : Nat → Option Doc) (mr : Nat) (o2 : Nat → Option Soup) :
    (∀ i d, (fetch_pageTrace o mr).delays.get? i = some d → d = 2 ^ i) ∧
    (fetch_pageTrace o mr).delays.length = (fetch_pageTrace o mr).attempts - 1 ∧
    (∀ d ∈ (fetch_soupTrace o2).delays, d = 1) ∧
    (fetch_soupTrace o2).delays.length = (fetch_soupTrace o2).attempts - 1 := by
  refine ⟨?_, fetch_page_go_delays_length o mr 0,
    fetch_soup_go_delays o2 (MAX_RETRIES + 1) 1,
    fetch_soup_go_delays_length o2 (MAX_RETRIES + 1) 1⟩
  intro i d h
  have := fetch_page_go_delays o mr 0 i d h
  simpa using this

theorem C4_amended_backoff_witness :
    (fetch_pageTrace (fun _ => (none : Option Doc)) 4).delays = [1, 2, 4] ∧
    (2 : Nat) = 2 ^ 1 ∧ (1 : Nat) = 1 := by
  have h := C4_amended_backoff (fun _ => none) 3 (fun _ => none)
  exact ⟨rfl, h.1 1 2 (by decide), h.2.2.1 1 (by decide)⟩

/-- C5.  The pagination walk fetches pages 1, 2, … sequentially and stops at
the first page that yields zero product-link nodes or answers 404: when
pages 1..N each yield a nonempty node list and page N+1 is empty or 404,
exactly pages 1..N+1 are fetched (in order, once each) and the returned URLs
are exactly the `href`s of pages 1..N — nothing from the terminating page. -/
theorem C5_pagination_termination (pages : Nat → PageResp)
    (ns : Nat → List (Option String)) (N fuel : Nat)
    (hprod : ∀ k, 1 ≤ k → k ≤ N → pages k = PageResp.okPage (ns k) ∧ ns k ≠ [])
    (hstop : pages (N + 1) = PageResp.okPage [] ∨ pages (N + 1) = PageResp.notFound)
    (hfuel : N + 1 ≤ fuel) :
    (get_all_product_links pages fuel).2 = List.range' 1 (N + 1) ∧
    (get_all_product_links pages fuel).1 =
      (List.range' 1 N).flatMap (fun k => (ns k).filterMap id) := by
  have h := get_all_product_links_go_spec pages ns N 1 fuel
    (fun k hk1 hk2 => hprod k hk1 (by omega))
    (by rw [Nat.add_comm 1 N]
        rcases hstop with h | h
        · exact Or.inl h
        · exact Or.inr (Or.inl h))
    hfuel
  rw [get_all_product_links, h]
  exact ⟨rfl, rfl⟩

theorem C5_pagination_termination_witness :
    (get_all_product_links pagesEx 10).2 = List.range' 1 4 ∧
    (get_all_product_links pagesEx 10).1 =
      (List.range' 1 3).flatMap (fun k => (nsEx k).filterMap id) :=
  C5_pagination_termination pagesEx nsEx 3 10
    (by intro k h1 h2
        interval_cases k <;> exact ⟨rfl, by decide⟩)
    (Or.inl rfl)
    (by omega)

/-- C6.  `parse_product_data` returns `None` when the product container
marker `div[id^=product-]` is absent, converts any structural failure its
body raises into `None` (the blanket `except Exception`), and never raises
to its caller — it is a total function into `Option`. -/
theorem C6_extract_null_safety (ts : String) (p : Page) (url : String) :
    (p.container = none → parse_product_data ts p url = none) ∧
    (p.malformed = true → parse_product_data ts p url = none) ∧
    (∀ e, parse_core ts p url = Except.error e → parse_product_data ts p url = none) ∧
    (parse_product_data ts p url = none ∨ ∃ r, parse_product_data ts p url = some r) := by
  refine ⟨?_, ?_, ?_, ?_⟩
  · intro hc
    unfold parse_product_data parse_core
    cases hm : p.malformed <;> simp [hc]
  · intro hm
    unfold parse_product_data parse_core
    simp [hm]
  · intro e he
    unfold parse_product_data
    rw [he]
  · cases h : parse_product_data ts p url with
    | none => exact Or.inl rfl
    | some r => exact Or.inr ⟨r, rfl⟩

theorem C6_extract_null_safety_witness :
    parse_product_data "t" pageNoContainer "u" = none :=
  (C6_extract_null_safety "t" pageNoContainer "u").1 rfl

/-- C7, counterexample.  The claim states `priceCurrent` contains at most
one decimal point.  The normalization `re.sub(r'[^\d.]', '', …)` keeps every
period: for the price text "Rs. 125,000.00" (the currency abbreviation
carries its own period) the extracted `price_current` is ".125000.00",
which contains two decimal points. -/
theorem C7_counterexample :
    ((parse_product_data "t" pageC7 "u").map
        (fun r => r.variants.map (fun v => v.price_current))) = some [".125000.00"] ∧
    (".125000.00" : String).data.count '.' = 2 := by
  exact ⟨rfl, rfl⟩

/-- C7, amended.  In every record `parse_product_data` produces, the
`price_current` of each variant is composed only of digits and decimal
points (possibly more than one point, as the counterexample shows), and it
equals the sentinel "0" exactly when no current-price node matched. -/
theorem C7_amended_price_chars (ts : String) (p : Page) (url : String)
    (r : ParsedProduct) (h : parse_product_data ts p url = some r) :
    ∀ v ∈ r.variants,
      (∀ ch ∈ v.price_current.data, ch.isDigit = true ∨ ch = '.') ∧
      (∀ c, p.container = some c → c.priceCurrText = none → v.price_current = "0") := by
  intro v hv
  unfold parse_product_data parse_core at h
  cases hm : p.malformed with
  | true => rw [hm] at h; simp at h
  | false =>
    rw [hm] at h
    cases hc : p.container with
    | none => rw [hc] at h; simp at h
    | some c =>
      rw [hc] at h
      simp at h
      subst h
      simp at hv
      subst hv
      constructor
      · cases hpc : c.priceCurrText with
        | some t =>
          simp only [hpc]
          intro ch hch
          have hch' : ch ∈ t.data.filter (fun c0 => c0.isDigit || c0 == '.') := hch
          have hpred := (List.mem_filter.mp hch').2
          simp only [Bool.or_eq_true] at hpred
          rcases hpred with h1 | h1
          · exact Or.inl h1
          · exact Or.inr (eq_of_beq h1)
        | none =>
          simp only [hpc]
          intro ch hch
          simp at hch
          subst hch
          exact Or.inl rfl
      · intro c' hc' hnone
        have hcc : c' = c := (Option.some_inj.mp hc').symm
        rw [hcc] at hnone
        simp [hnone]

theorem C7_amended_price_chars_witness :
    (∀ ch ∈ varW.price_current.data, ch.isDigit = true ∨ ch = '.') ∧
    (∀ c, pageW.container = some c → c.priceCurrText = none → varW.price_current = "0") :=
  C7_amended_price_chars "t" pageW "u1" recW (by decide) varW (by decide)

/-- C8, counterexample.  The claim states that when the sitemap-index fetch
fails, the run still writes the output artifact with a zero-count summary.
With every fetch attempt failing, the asyncio `main` returns 0 on line 99
before ever reaching `save_data` (line 117): the record collection is empty
and the count is zero, but no artifact is written. -/
theorem C8_counterexample :
    async_main "t" (fun _ _ => none) idxUrl =
      { artifactWritten := false, records := [], returned := 0 } := by
  exact rfl

/-- C8, amended.  When the sitemap-index fetch fails, the run completes
without crashing, the record collection is empty and the returned count is
zero (the console summary printed by the entry point therefore reports
zero), but `save_data` is not called, so the JSON output artifact is not
written. -/
theorem C8_amended_index_failure (ts : String) (o : String → Nat → Option Doc)
    (idx : String) (h : fetchDoc o 3 idx = none) :
    async_main ts o idx =
      { artifactWritten := false, records := [], returned := 0 } := by
  unfold async_main
  rw [h]

theorem C8_amended_index_failure_witness :
    async_main "t2" (fun _ _ => none) "https://example.invalid/sitemap.xml" =
      { artifactWritten := false, records := [], returned := 0 } :=
  C8_amended_index_failure "t2" (fun _ _ => none) "https://example.invalid/sitemap.xml" rfl

/-- C9.  The semaphore admission gate bounds concurrency: in every state
reachable from a start state of any number of dispatched (waiting) tasks,
at most `n = max_connections` tasks are inside the `async with
self.semaphore` block, and since every HTTP attempt of `fetch_page` happens
inside that block with at most one attempt in flight per task, at most `n`
fetch attempts are simultaneously in flight, regardless of task count. -/
theorem C9_concurrency_bound (n : Nat) (s : List TaskPhase)
    (h : SemReachable n s) : holdingCount s ≤ n := by
  induction h with
  | init ts hts =>
    have hz : holdingCount ts = 0 := by
      rw [holdingCount, List.count_eq_zero]
      intro hmem
      exact absurd (hts _ hmem) (by decide)
    omega
  | step hr hstep ih =>
    cases hstep with
    | acquire pre post hlt =>
      have h1 : holdingCount (pre ++ TaskPhase.holding :: post) =
          holdingCount (pre ++ TaskPhase.waiting :: post) + 1 := by
        simp [holdingCount, List.count_append, List.count_cons]
        omega
      omega
    | release pre post =>
      have h1 : holdingCount (pre ++ TaskPhase.done :: post) + 1 =
          holdingCount (pre ++ TaskPhase.holding :: post) := by
        simp [holdingCount, List.count_append, List.count_cons]
        omega
      omega

theorem C9_concurrency_bound_witness :
    holdingCount [TaskPhase.holding, TaskPhase.waiting] ≤ 3 :=
  C9_concurrency_bound 3 [TaskPhase.holding, TaskPhase.waiting]
    (SemReachable.step
      (SemReachable.init [TaskPhase.waiting, TaskPhase.waiting] (by decide))
      (SemStep.acquire [] [TaskPhase.waiting] (by decide)))

/-- C10.  A transport-level error (`requests.RequestException`) while
fetching a category page terminates the pagination walk immediately and
without retry, exactly like the empty page and the 404: when pages 1..N
yield products and fetching page N+1 raises, exactly pages 1..N+1 are
fetched (page N+1 once — no retry) and the returned URLs are exactly those
collected from pages 1..N; the failed page and all later pages contribute
nothing. -/
theorem C10_pagination_transport_stop (pages : Nat → PageResp)
    (ns : Nat → List (Option String)) (N fuel : Nat)
    (hprod : ∀ k, 1 ≤ k → k ≤ N → pages k = PageResp.okPage (ns k) ∧ ns k ≠ [])
    (hstop : pages (N + 1) = PageResp.exn)
    (hfuel : N + 1 ≤ fuel) :
    (get_all_product_links pages fuel).2 = List.range' 1 (N + 1) ∧
    (get_all_product_links pages fuel).1 =
      (List.range' 1 N).flatMap (fun k => (ns k).filterMap id) := by
  have h := get_all_product_links_go_spec pages ns N 1 fuel
    (fun k hk1 hk2 => hprod k hk1 (by omega))
    (by rw [Nat.add_comm 1 N]
        exact Or.inr (Or.inr hstop))
    hfuel
  rw [get_all_product_links, h]
  exact ⟨rfl, rfl⟩

theorem C10_pagination_transport_stop_witness :
    (get_all_product_links pagesEx2 9).2 = List.range' 1 3 ∧
    (get_all_product_links pagesEx2 9).1 =
      (List.range' 1 2).flatMap (fun k => (nsEx2 k).filterMap id) :=
  C10_pagination_transport_stop pagesEx2 nsEx2 2 9
    (by intro k h1 h2
        interval_cases k <;> exact ⟨rfl, by decide⟩)
    rfl
    (by omega)

end WebScrape
